import Mathlib

/-!
Shallow embedding of the matching-and-reconciliation core of the
`arrem_sync` package (files `sync_service.py`, `emby_client.py`,
`multi_sync_service.py`), together with theorems checking the
natural-language specification against it.

Python dictionaries holding items are embedded as structures with the
fields the code reads; `dict.get` with a default becomes `Option.getD`;
Python truthiness tests (`if tmdb_id:`) become explicit checks against the
falsy values (`0`, `""`, absent).  HTTP effects are abstracted by boolean
oracles (`connOk`, `postOk`) and the stream of issued write calls is made
explicit so that frame conditions ("no gateway write is issued") are
statable.
-/

/-- Embedding of `str.lower()` on the ASCII names used by the code ("Movie", "Series"). -/
def pyLower (s : String) : String := String.mk (s.data.map Char.toLower)

/-- Python `repr` of a list of (quote-free) strings, as interpolated into
f-strings like `f"Added tags: {missing_tags}"`. -/
def pyListRepr (l : List String) : String :=
  "[" ++ String.intercalate ", " (l.map (fun s => "'" ++ s ++ "'")) ++ "]"

/-- Embedding of `types.py` `ArrItem` (TypedDict, total=False): the fields the sync code
reads.  Absent optional fields are `none`; `tags` absent is read through
`arr_item.get("tags", [])`, so it is embedded directly as a list. -/
structure ArrItem where
  title : Option String
  tmdbId : Option Int
  imdbId : Option String
  tvdbId : Option Int
  tags : List Int
deriving DecidableEq

/-- Embedding of `types.py` `EmbyTagItem`: one entry of an Emby item's `TagItems`. -/
structure EmbyTagItem where
  Name : String
deriving DecidableEq

/-- Embedding of `types.py` `EmbyItem`: the fields the sync code reads.  The `Type`
field (a Lean keyword) is embedded as `type'`; `ProviderIds` is the
provider-name → provider-id mapping, already stringified as it appears in
the cache keys. -/
structure EmbyItem where
  Id : String
  Name : Option String
  type' : Option String
  TagItems : List EmbyTagItem
  ProviderIds : List (String × String)
deriving DecidableEq

/-- The tag names of an Emby item, as read by
`[tag_item["Name"] for tag_item in emby_item.get("TagItems", [])]`. -/
def embyTagNames (it : EmbyItem) : List String := it.TagItems.map (·.Name)

/-- The cache `EmbyClient._provider_id_cache : dict[str, EmbyItem]`, embedded as an
association list where a later insertion shadows earlier ones (entries are
prepended, lookup takes the first match — observationally Python's
last-write-wins `dict`). -/
def ProviderCache := List (String × EmbyItem)

/-- Python `dict.get(key)` on the provider cache. -/
def cacheGet (c : ProviderCache) (k : String) : Option EmbyItem :=
  match c with
  | [] => none
  | p :: rest => if p.1 == k then some p.2 else cacheGet rest k

/-- Embedding of `EmbyClient._build_provider_id_cache`: for each item, for each
`(provider, provider_id)` pair, insert `f"{provider}:{provider_id}" → item`
into the cache (later writes shadow earlier ones). -/
def build_provider_id_cache (c : ProviderCache) (items : List EmbyItem) : ProviderCache :=
  items.foldl
    (fun c it => it.ProviderIds.foldl
      (fun c pr => ((pr.1 ++ ":" ++ pr.2, it) : String × EmbyItem) :: c) c) c

/-- Embedding of `EmbyClient.find_item_by_provider_id`, given an already-populated
provider cache (the orchestrator warms it via `_warm_emby_client_cache`
before any lookup): build the composite key, look it up, and return the
item only if its stored `Type` (defaulting to `""`) equals the requested
type case-insensitively. -/
def find_item_by_provider_id (cache : ProviderCache)
    (provider provider_id item_type : String) : Option EmbyItem :=
  match cacheGet cache (provider ++ ":" ++ provider_id) with
  | some item =>
      if pyLower (item.type'.getD "") == pyLower item_type then some item else none
  | none => none

/-- One issued gateway write (`POST /emby/Items/{id}/Tags/Add`). -/
structure UpdateCall where
  itemId : String
  tags : List String
deriving DecidableEq

/-- Embedding of `EmbyClient.update_item_tags`: under dry-run it returns `True` without
issuing any HTTP call; otherwise it issues exactly one `Tags/Add` call for
the given tags, whose success is the network oracle `postOk` (an HTTP
error is caught and reported as `False`).  The second component is the
list of issued write calls. -/
def update_item_tags (postOk : Bool) (item_id : String) (tags : List String)
    (dry_run : Bool) : Bool × List UpdateCall :=
  if dry_run then (true, [])
  else (postOk, [⟨item_id, tags⟩])

/-- Embedding of `TagSyncService.resolve_tag_labels`: map each tag ID through the cached
mapping, falling back to the sentinel `f"Unknown-{tag_id}"`. -/
def resolve_tag_labels (tag_mapping : Int → Option String) (tag_ids : List Int) :
    List String :=
  tag_ids.map (fun tag_id => (tag_mapping tag_id).getD ("Unknown-" ++ toString tag_id))

/-- The ordered `provider_attempts` list built by
`TagSyncService.find_matching_emby_item`: TMDb if truthy, then IMDb if
truthy, then (sonarr only) TVDB if truthy.  Python truthiness: `0`, `""`
and `None` are falsy. -/
def provider_attempts (arr_type : String) (a : ArrItem) : List (String × String) :=
  (match a.tmdbId with
   | some n => if n != 0 then [("Tmdb", toString n)] else []
   | none => []) ++
  (match a.imdbId with
   | some s => if s != "" then [("Imdb", s)] else []
   | none => []) ++
  (if arr_type == "sonarr" then
    match a.tvdbId with
    | some n => if n != 0 then [("Tvdb", toString n)] else []
    | none => []
   else [])

/-- The lookup loop of `find_matching_emby_item`: try each provider attempt
in order, returning the first hit. -/
def lookup_attempts (cache : ProviderCache) (item_type : String) :
    List (String × String) → Option EmbyItem
  | [] => none
  | c :: rest =>
      match find_item_by_provider_id cache c.1 c.2 item_type with
      | some it => some it
      | none => lookup_attempts cache item_type rest

/-- Instrumented version of the lookup loop, additionally returning the
list of candidates actually queried (the loop stops at the first hit, so
later candidates are never consulted).  `lookup_attempts_trace_fst` proves
it computes the same result as `lookup_attempts`. -/
def lookup_attempts_trace (cache : ProviderCache) (item_type : String) :
    List (String × String) → Option EmbyItem × List (String × String)
  | [] => (none, [])
  | c :: rest =>
      match find_item_by_provider_id cache c.1 c.2 item_type with
      | some it => (some it, [c])
      | none =>
          let r := lookup_attempts_trace cache item_type rest
          (r.1, c :: r.2)

/-- Embedding of `TagSyncService.find_matching_emby_item`: derive the Emby item type
from the Arr type (radarr→Movie, anything else→Series), build the ordered
candidate list and return the first cache hit, or `none`. -/
def find_matching_emby_item (arr_type : String) (cache : ProviderCache)
    (a : ArrItem) : Option EmbyItem :=
  let item_type := if arr_type == "radarr" then "Movie" else "Series"
  lookup_attempts cache item_type (provider_attempts arr_type a)

/-- Embedding of `TagSyncService.StatusCode`. -/
inductive StatusCode where
  | updated
  | already_synced
  | no_tags
  | not_in_emby
  | failed
  | error
deriving DecidableEq

/-- Embedding of `TagSyncService.SyncResult`. -/
structure SyncResult where
  success : Bool
  message : String
  code : StatusCode
deriving DecidableEq

/-- The body of `TagSyncService.sync_tags_for_item_structured` after the
matching step (whose result is `matched`): the no-tags check, label
resolution, the set-subset `already_synced` check, the order-preserving
`missing_tags` filter, and the `update_item_tags` call.  Returns the
structured result together with the gateway write calls issued. -/
def sync_tags_for_item_core (tag_mapping : Int → Option String)
    (dry_run postOk : Bool) (matched : Option EmbyItem) (a : ArrItem) :
    SyncResult × List UpdateCall :=
  match matched with
  | none =>
      (⟨true,
        "Item not found in Emby (may not be imported yet): " ++ a.title.getD "Unknown",
        .not_in_emby⟩, [])
  | some emby_item =>
      if a.tags.isEmpty then
        (⟨true, "No tags to sync", .no_tags⟩, [])
      else
        let new_tags := resolve_tag_labels tag_mapping a.tags
        let current_tags := embyTagNames emby_item
        -- new_set.issubset(current_set) over the corresponding Python sets
        if new_tags.all (fun t => current_tags.contains t) then
          (⟨true, "Tags already up to date", .already_synced⟩, [])
        else
          let missing_tags := new_tags.filter (fun t => !(current_tags.contains t))
          let r := update_item_tags postOk emby_item.Id missing_tags dry_run
          if r.1 then
            (⟨true,
              (if dry_run then "Would add" else "Added") ++ " tags: " ++ pyListRepr missing_tags,
              .updated⟩, r.2)
          else
            (⟨false, "Failed to update tags in Emby", .failed⟩, r.2)

/-- Embedding of `TagSyncService.sync_tags_for_item_structured` on the happy matching
path (no exception raised): matching through the provider cache followed
by the reconciliation core. -/
def sync_tags_for_item_structured (arr_type : String)
    (tag_mapping : Int → Option String) (cache : ProviderCache)
    (dry_run postOk : Bool) (a : ArrItem) : SyncResult × List UpdateCall :=
  sync_tags_for_item_core tag_mapping dry_run postOk
    (find_matching_emby_item arr_type cache a) a

/-- Embedding of `sync_tags_for_item_structured` with its surrounding `try/except`: an
exception raised inside the body (modelled at the matching boundary, the
effectful step) is caught and turned into a `SyncResult(False, f"Error: {e}",
"error")`; no gateway write has been issued at that point. -/
def sync_item_catching (tag_mapping : Int → Option String)
    (dry_run postOk : Bool) (matchResult : Except String (Option EmbyItem))
    (a : ArrItem) : SyncResult × List UpdateCall :=
  match matchResult with
  | .error e => (⟨false, "Error: " ++ e, .error⟩, [])
  | .ok m => sync_tags_for_item_core tag_mapping dry_run postOk m a

/-- The `stats` accumulator of `TagSyncService.sync_all_tags`. -/
structure Stats where
  total_items : Nat
  processed_items : Nat
  successful_syncs : Nat
  failed_syncs : Nat
  not_in_emby : Nat
  already_synced : Nat
  no_tags_to_sync : Nat
  errors : List String
deriving DecidableEq

/-- The freshly initialized statistics of `sync_all_tags`. -/
def initStats (total : Nat) : Stats :=
  ⟨total, 0, 0, 0, 0, 0, 0, []⟩

/-- The per-item bookkeeping of `sync_all_tags`'s inner loop: increment
`processed_items`, then dispatch on the result's success flag and status
code (the catch-all `case _` of the `match` counts as a successful sync);
a failure appends exactly one message to `errors`. -/
def record_result (stats : Stats) (title : String) (res : SyncResult) : Stats :=
  let stats := { stats with processed_items := stats.processed_items + 1 }
  if res.success then
    match res.code with
    | .not_in_emby => { stats with not_in_emby := stats.not_in_emby + 1 }
    | .already_synced => { stats with already_synced := stats.already_synced + 1 }
    | .no_tags => { stats with no_tags_to_sync := stats.no_tags_to_sync + 1 }
    | _ => { stats with successful_syncs := stats.successful_syncs + 1 }
  else
    { stats with
      failed_syncs := stats.failed_syncs + 1,
      errors := stats.errors ++ ["✗ " ++ title ++ ": " ++ res.message] }

/-- Modelled from the spec: the Emby server's `Tags/Add` endpoint —
MediaServerGateway `addTags(itemId, [tagName])` is additive and idempotent
against duplicates: the named item gains the given tag names it does not
already carry; no tag is ever removed and no other item is touched. -/
def addTagsToItem (it : EmbyItem) (tags : List String) : EmbyItem :=
  let fresh := (tags.filter (fun t => !((embyTagNames it).contains t))).map
    (fun t => EmbyTagItem.mk t)
  { it with TagItems := it.TagItems ++ fresh }

/-- Modelled from the spec: applying one `addTags` call to the server's
item list — only the named item is touched. -/
def applyAddTags (server : List EmbyItem) (call : UpdateCall) : List EmbyItem :=
  match server with
  | [] => []
  | it :: rest =>
      (if it.Id == call.itemId then addTagsToItem it call.tags else it) ::
        applyAddTags rest call

/-- Apply a sequence of issued `Tags/Add` calls to the server state. -/
def applyCalls (server : List EmbyItem) (calls : List UpdateCall) : List EmbyItem :=
  calls.foldl applyAddTags server

/-- The tag names the server holds for the item with the given id
(`[]` if no such item exists). -/
def serverTagNames (server : List EmbyItem) (id : String) : List String :=
  match server with
  | [] => []
  | it :: rest => if it.Id == id then embyTagNames it else serverTagNames rest id

/-- Python's `range(0, len(items), batch_size)` slicing of
`sync_all_tags`'s batch loop: partition the list into chunks of
`batch_size`.  (`batch_size = 0` would raise `ValueError` in the source;
it is mapped to an empty batch list, and every theorem about a concrete
run uses a positive batch size.) -/
def pyBatchesAux (batch_size : Nat) : Nat → List ArrItem → List (List ArrItem)
  | _, [] => []
  | 0, _ :: _ => []
  | fuel + 1, a :: as =>
      ((a :: as).take batch_size) :: pyBatchesAux batch_size fuel ((a :: as).drop batch_size)

/-- The chunking itself, with `l.length` as structural-recursion fuel
(sufficient since each positive-sized batch consumes at least one item). -/
def pyBatches (batch_size : Nat) (l : List ArrItem) : List (List ArrItem) :=
  if batch_size = 0 then [] else pyBatchesAux batch_size l.length l

/-- One configured Arr instance as the multi-instance orchestrator sees
it: its type, base URL, connectivity-probe oracle, the tag id→label
mapping its `ArrClient.get_tags` yields, and the items its
`get_all_items` yields. -/
structure ArrInstance where
  arr_type : String
  base_url : String
  connOk : Bool
  tag_mapping : Int → Option String
  items : List ArrItem

/-- The lazily-built caches of the single shared `EmbyClient`:
`_movies_cache`, `_series_cache` and `_provider_id_cache`. -/
structure ClientCaches where
  movies : Option (List EmbyItem)
  series : Option (List EmbyItem)
  provider : ProviderCache

/-- The cold caches of a fresh `EmbyClient`. -/
def emptyCaches : ClientCaches := ⟨none, none, []⟩

/-- Embedding of `TagSyncService._warm_emby_client_cache`: radarr warms
`get_all_movies`, anything else warms `get_all_series`; each fetch (the
server returns the items of the requested kind) is cached and feeds
`_build_provider_id_cache`, and a second warm of the same kind is a no-op
served from the cache. -/
def warm (arr_type : String) (server : List EmbyItem) (c : ClientCaches) :
    ClientCaches :=
  if arr_type == "radarr" then
    match c.movies with
    | some _ => c
    | none =>
        let ms := server.filter (fun it => it.type'.getD "" == "Movie")
        { c with movies := some ms, provider := build_provider_id_cache c.provider ms }
  else
    match c.series with
    | some _ => c
    | none =>
        let ss := server.filter (fun it => it.type'.getD "" == "Series")
        { c with series := some ss, provider := build_provider_id_cache c.provider ss }

/-- One iteration of `sync_all_tags`'s item loop: run the structured sync
(the `exc` oracle names the exception, if any, the item's effectful
matching step raises; the `try/except` inside
`sync_tags_for_item_structured` catches it), record the result in the
statistics, and apply the successfully-posted write calls to the server
state (a failed POST leaves the server unchanged). -/
def item_step (arr_type : String) (tag_mapping : Int → Option String)
    (cache : ProviderCache) (dry_run postOk : Bool)
    (exc : ArrItem → Option String) (acc : Stats × List EmbyItem)
    (a : ArrItem) : Stats × List EmbyItem :=
  let matchResult : Except String (Option EmbyItem) :=
    match exc a with
    | some e => .error e
    | none => .ok (find_matching_emby_item arr_type cache a)
  let rc := sync_item_catching tag_mapping dry_run postOk matchResult a
  (record_result acc.1 (a.title.getD "Unknown") rc.1,
   if postOk then applyCalls acc.2 rc.2 else acc.2)

/-- Embedding of `TagSyncService.sync_all_tags` for one instance: probe the Arr and
Emby connections (raising on failure), warm the shared Emby client's
caches, then fold the per-item step over the batched item list,
returning the statistics, the (shared) caches and the final server
state.  (The `except` around the whole body re-raises, and the inner
per-item `except` is unreachable because `sync_tags_for_item_structured`
catches every exception itself.) -/
def sync_all_tags_model (inst : ArrInstance) (embyOk dry_run postOk : Bool)
    (exc : ArrItem → Option String) (batch_size : Nat)
    (caches : ClientCaches) (server : List EmbyItem) :
    Except String (Stats × ClientCaches × List EmbyItem) :=
  if !inst.connOk then .error ("Failed to connect to " ++ inst.arr_type)
  else if !embyOk then .error "Failed to connect to Emby server"
  else
    let caches := warm inst.arr_type server caches
    let start : Stats × List EmbyItem := (initStats inst.items.length, server)
    let r := (pyBatches batch_size inst.items).foldl
      (fun acc batch =>
        batch.foldl (item_step inst.arr_type inst.tag_mapping caches.provider dry_run postOk exc) acc)
      start
    .ok (r.1, caches, r.2)

/-- One per-instance result record of `sync_all_instances`
(`{"instance_number": …, "stats": …}`; a failed instance stores
`{"error": str(e)}` instead of statistics, embedded as `Except.error`). -/
structure InstanceResult where
  instance_number : Nat
  instance_name : String
  arr_type : String
  base_url : String
  stats : Except String Stats

/-- The `overall_stats` accumulator of
`MultiTagSyncService.sync_all_instances`. -/
structure OverallStats where
  total_instances : Nat
  instance_results : List InstanceResult
  total_items : Nat
  processed_items : Nat
  successful_syncs : Nat
  failed_syncs : Nat
  not_in_emby : Nat
  already_synced : Nat
  no_tags_to_sync : Nat
  errors : List String

/-- The freshly initialized aggregate statistics. -/
def initOverall (n : Nat) : OverallStats := ⟨n, [], 0, 0, 0, 0, 0, 0, 0, []⟩

/-- Python's `enumerate(xs, 1)`. -/
def pyEnumerate1 {α : Type} : Nat → List α → List (Nat × α)
  | _, [] => []
  | i, a :: as => (i, a) :: pyEnumerate1 (i + 1) as

/-- Embedding of `MultiTagSyncService.test_all_connections`: probe Emby once, then each
Arr client once, keyed `f"{arr_type}_{i}"` with 1-based indices, in
insertion order. -/
def test_all_connections (embyOk : Bool) (insts : List ArrInstance) :
    List (String × Bool) :=
  ("emby", embyOk) ::
    (pyEnumerate1 1 insts).map
      (fun p => (p.2.arr_type ++ "_" ++ toString p.1, p.2.connOk))

/-- One iteration of `sync_all_instances`'s per-instance loop: run the
instance's `sync_all_tags`; on success aggregate its statistics and thread
the updated shared caches and server state; on an instance-level exception
record the error stats entry, append the error message, and continue with
the state unchanged (in this model an instance can only fail at its
connection probes, before any write). -/
def instance_step (embyOk dry_run postOk : Bool)
    (exc : ArrItem → Option String) (batch_size : Nat)
    (acc : OverallStats × ClientCaches × List EmbyItem)
    (p : Nat × ArrInstance) : OverallStats × ClientCaches × List EmbyItem :=
  let i := p.1
  let inst := p.2
  let instance_name := "Instance " ++ toString i ++ " (" ++ inst.arr_type ++ ")"
  match sync_all_tags_model inst embyOk dry_run postOk exc batch_size acc.2.1 acc.2.2 with
  | .ok (st, caches', server') =>
      let over := acc.1
      ({ over with
          instance_results := over.instance_results ++
            [⟨i, instance_name, inst.arr_type, inst.base_url, .ok st⟩],
          total_items := over.total_items + st.total_items,
          processed_items := over.processed_items + st.processed_items,
          successful_syncs := over.successful_syncs + st.successful_syncs,
          failed_syncs := over.failed_syncs + st.failed_syncs,
          not_in_emby := over.not_in_emby + st.not_in_emby,
          already_synced := over.already_synced + st.already_synced,
          no_tags_to_sync := over.no_tags_to_sync + st.no_tags_to_sync,
          errors := over.errors ++ st.errors },
        caches', server')
  | .error e =>
      let over := acc.1
      ({ over with
          errors := over.errors ++ ["Failed to sync " ++ instance_name ++ ": " ++ e],
          instance_results := over.instance_results ++
            [⟨i, instance_name, inst.arr_type, inst.base_url, .error e⟩] },
        acc.2.1, acc.2.2)

/-- Embedding of `MultiTagSyncService.sync_all_instances`: probe every configured
service first; if any probe failed, raise
`Exception(f"Failed to connect to services: {', '.join(failed)}")` before
any instance is processed; otherwise run each instance sequentially
against the one shared Emby client, aggregating statistics, and return
the aggregate together with the final shared caches and server state. -/
def sync_all_instances_model (embyOk : Bool) (insts : List ArrInstance)
    (dry_run postOk : Bool) (exc : ArrItem → Option String) (batch_size : Nat)
    (caches : ClientCaches) (server : List EmbyItem) :
    Except String (OverallStats × ClientCaches × List EmbyItem) :=
  let conn := test_all_connections embyOk insts
  let failed := (conn.filter (fun p => !p.2)).map (·.1)
  if failed.isEmpty then
    .ok ((pyEnumerate1 1 insts).foldl
      (instance_step embyOk dry_run postOk exc batch_size)
      (initOverall insts.length, caches, server))
  else
    .error ("Failed to connect to services: " ++ String.intercalate ", " failed)

/-- The final server state of a multi-instance run (`[]` when the run
aborted before processing). -/
def finalServer (r : Except String (OverallStats × ClientCaches × List EmbyItem)) :
    List EmbyItem :=
  match r with
  | .ok x => x.2.2
  | .error _ => []

/-- The statistics of a single-instance run (zeroed when the run raised). -/
def runStats (r : Except String (Stats × ClientCaches × List EmbyItem)) : Stats :=
  match r with
  | .ok x => x.1
  | .error _ => initStats 0

/-! ### Helper lemmas -/

/-- The instrumented lookup loop computes the same result as the plain one. -/
theorem lookup_attempts_trace_fst (cache : ProviderCache) (t : String) :
    ∀ l, (lookup_attempts_trace cache t l).1 = lookup_attempts cache t l := by
  intro l
  induction l with
  | nil => rfl
  | cons c rest ih =>
      simp only [lookup_attempts_trace, lookup_attempts]
      cases find_item_by_provider_id cache c.1 c.2 t <;> simp [ih]

/-- If every candidate misses, the lookup loop returns `none`. -/
theorem lookup_attempts_eq_none (cache : ProviderCache) (t : String) :
    ∀ l, (∀ c ∈ l, find_item_by_provider_id cache c.1 c.2 t = none) →
      lookup_attempts cache t l = none := by
  intro l h
  induction l with
  | nil => rfl
  | cons c rest ih =>
      simp only [lookup_attempts]
      rw [h c (by simp)]
      exact ih (fun d hd => h d (by simp [hd]))

/-- The Python set-subset check of the reconciler agrees with emptiness of
the order-preserving `missing_tags` filter. -/
theorem subset_check_iff_filter_nil (new cur : List String) :
    (new.all (fun t => cur.contains t) = true) ↔
      new.filter (fun t => !(cur.contains t)) = [] := by
  induction new with
  | nil => simp
  | cons t rest ih =>
      simp only [List.all_cons, List.filter_cons, Bool.and_eq_true]
      cases h : cur.contains t <;> simp [h, ih]

/-! ### C6 — tag label resolution -/

/-- The mapping `{1:"A", 2:"B", 3:"C"}` of the spec's order-preservation
example. -/
def exampleMappingABC : Int → Option String :=
  fun i => if i = 1 then some "A" else if i = 2 then some "B" else
    if i = 3 then some "C" else none

/-- The mapping `{1:"A"}` of the spec's unknown-tag-fallback example. -/
def exampleMappingA : Int → Option String :=
  fun i => if i = 1 then some "A" else none

/-- C6: `resolve_tag_labels` preserves length and order, maps the i-th ID
to its cached label when present and to the sentinel `"Unknown-{id}"`
otherwise, never failing; in particular `resolveLabels([3,1,2])` under
`{1:"A",2:"B",3:"C"}` is `["C","A","B"]` and `resolveLabels([1,99])` under
`{1:"A"}` is `["A","Unknown-99"]`. -/
theorem resolve_tag_labels_spec :
    (∀ (m : Int → Option String) (ids : List Int),
      (resolve_tag_labels m ids).length = ids.length) ∧
    (∀ (m : Int → Option String) (ids : List Int) (i : Nat),
      (resolve_tag_labels m ids)[i]? =
        (ids[i]?).map (fun id => (m id).getD ("Unknown-" ++ toString id))) ∧
    resolve_tag_labels exampleMappingABC [3, 1, 2] = ["C", "A", "B"] ∧
    resolve_tag_labels exampleMappingA [1, 99] = ["A", "Unknown-99"] := by
  refine ⟨?_, ?_, ?_, ?_⟩
  · intro m ids
    simp [resolve_tag_labels]
  · intro m ids i
    simp [resolve_tag_labels]
  · rfl
  · rfl

/-! ### C5 — provider-ID lookup with kind check -/

/-- C5: `find_item_by_provider_id` returns the cached item exactly when the
composite key is indexed and the item's stored kind equals the requested
kind case-insensitively; a cross-kind collision yields `none` rather than
the wrong-kind item. -/
theorem provider_lookup_kind_spec :
    ∀ (cache : ProviderCache) (provider provider_id kind : String),
      (∀ it, find_item_by_provider_id cache provider provider_id kind = some it ↔
        (cacheGet cache (provider ++ ":" ++ provider_id) = some it ∧
          pyLower (it.type'.getD "") = pyLower kind)) ∧
      (∀ it, cacheGet cache (provider ++ ":" ++ provider_id) = some it →
        pyLower (it.type'.getD "") ≠ pyLower kind →
        find_item_by_provider_id cache provider provider_id kind = none) := by
  intro cache provider provider_id kind
  constructor
  · intro it
    unfold find_item_by_provider_id
    cases h : cacheGet cache (provider ++ ":" ++ provider_id) with
    | none => simp [h]
    | some found =>
        by_cases ht : pyLower (found.type'.getD "") = pyLower kind
        · simp only [ht, h, beq_self_eq_true, if_true, Option.some.injEq]
          constructor
          · rintro rfl
            exact ⟨rfl, ht⟩
          · rintro ⟨rfl, _⟩
            rfl
        · simp only [h, Option.some.injEq]
          rw [if_neg (by simpa using ht)]
          simp only [reduceCtorEq, false_iff, not_and]
          rintro rfl
          exact fun h2 => absurd h2 ht
  · intro it h1 h2
    unfold find_item_by_provider_id
    rw [h1]
    simp [h2]

/-- An Emby series used to exhibit the cross-kind collision of C5. -/
def exampleSeries : EmbyItem :=
  ⟨"s1", some "Some Show", some "Series", [], [("Tmdb", "42")]⟩

/-- Witness for C5: with `"Tmdb:42"` indexed for a Series, a Movie lookup
of the same provider key returns `none`. -/
theorem provider_lookup_kind_spec_witness :
    find_item_by_provider_id [("Tmdb:42", exampleSeries)] "Tmdb" "42" "Movie" = none :=
  (provider_lookup_kind_spec [("Tmdb:42", exampleSeries)] "Tmdb" "42" "Movie").2
    exampleSeries (by rfl) (by decide)

/-! ### C10 — truthiness of provider-ID presence -/

/-- C10: a `tmdbId` of `0`, an `imdbId` of `""`, and a `tvdbId` of `0`
generate no lookup candidate and behave exactly as if the field were
absent, both in the candidate list and in the overall match result. -/
theorem provider_truthiness_spec :
    ∀ (arr_type : String) (cache : ProviderCache) (a : ArrItem),
      (provider_attempts arr_type { a with tmdbId := some 0 } =
          provider_attempts arr_type { a with tmdbId := none } ∧
        find_matching_emby_item arr_type cache { a with tmdbId := some 0 } =
          find_matching_emby_item arr_type cache { a with tmdbId := none }) ∧
      (provider_attempts arr_type { a with imdbId := some "" } =
          provider_attempts arr_type { a with imdbId := none } ∧
        find_matching_emby_item arr_type cache { a with imdbId := some "" } =
          find_matching_emby_item arr_type cache { a with imdbId := none }) ∧
      (provider_attempts arr_type { a with tvdbId := some 0 } =
          provider_attempts arr_type { a with tvdbId := none } ∧
        find_matching_emby_item arr_type cache { a with tvdbId := some 0 } =
          find_matching_emby_item arr_type cache { a with tvdbId := none }) := by
  intro arr_type cache a
  have h1 : provider_attempts arr_type { a with tmdbId := some 0 } =
      provider_attempts arr_type { a with tmdbId := none } := by
    simp [provider_attempts]
  have h2 : provider_attempts arr_type { a with imdbId := some "" } =
      provider_attempts arr_type { a with imdbId := none } := by
    simp [provider_attempts]
  have h3 : provider_attempts arr_type { a with tvdbId := some 0 } =
      provider_attempts arr_type { a with tvdbId := none } := by
    simp [provider_attempts]
  exact ⟨⟨h1, by simp [find_matching_emby_item, h1]⟩,
    ⟨h2, by simp [find_matching_emby_item, h2]⟩,
    ⟨h3, by simp [find_matching_emby_item, h3]⟩⟩

/-! ### C4 — ordered provider-priority matching -/

/-- C4: `find_matching_emby_item` queries the candidate provider IDs in
priority order TMDb → IMDb → TVDB and returns the first hit: whenever the
TMDb ID is present (truthy) and its lookup hits, that hit is the result
and the trace shows TMDb is the only candidate consulted; and when no
candidate exists or every candidate misses, the result is `none` (a
non-error "no match"). -/
theorem provider_priority_spec :
    ∀ (arr_type : String) (cache : ProviderCache) (a : ArrItem),
      (∀ (n : Int) (M : EmbyItem), a.tmdbId = some n → n ≠ 0 →
        find_item_by_provider_id cache "Tmdb" (toString n)
            (if arr_type == "radarr" then "Movie" else "Series") = some M →
        find_matching_emby_item arr_type cache a = some M ∧
        (lookup_attempts_trace cache (if arr_type == "radarr" then "Movie" else "Series")
            (provider_attempts arr_type a)).2 = [("Tmdb", toString n)]) ∧
      ((∀ c ∈ provider_attempts arr_type a,
          find_item_by_provider_id cache c.1 c.2
            (if arr_type == "radarr" then "Movie" else "Series") = none) →
        find_matching_emby_item arr_type cache a = none) := by
  intro arr_type cache a
  constructor
  · intro n M hn hne hfind
    have h0 : (match a.tmdbId with
        | some n => if n != 0 then [(("Tmdb" : String), toString n)] else []
        | none => []) = [("Tmdb", toString n)] := by
      rw [hn]
      simp [hne]
    have hatt : provider_attempts arr_type a = ("Tmdb", toString n) ::
        ((match a.imdbId with
          | some s => if s != "" then [(("Imdb" : String), s)] else []
          | none => []) ++
         (if arr_type == "sonarr" then
            match a.tvdbId with
            | some m => if m != 0 then [(("Tvdb" : String), toString m)] else []
            | none => []
          else [])) := by
      unfold provider_attempts
      rw [h0]
      rfl
    constructor
    · unfold find_matching_emby_item
      rw [hatt]
      simp only [beq_iff_eq] at hfind
      simp [lookup_attempts, hfind]
    · rw [hatt]
      simp only [beq_iff_eq] at hfind
      simp [lookup_attempts_trace, hfind]
  · intro hmiss
    unfold find_matching_emby_item
    exact lookup_attempts_eq_none cache _ _ hmiss

/-- A cached movie matched by TMDb ID, for the C4 witness. -/
def exampleMovie1 : EmbyItem :=
  ⟨"m1", some "Movie One", some "Movie", [], [("Tmdb", "7")]⟩

/-- A different cached movie matched by IMDb ID, for the C4 witness. -/
def exampleMovie2 : EmbyItem :=
  ⟨"m2", some "Movie Two", some "Movie", [], [("Imdb", "tt9")]⟩

/-- Cache holding both C4 witness movies under distinct provider keys. -/
def exampleCacheC4 : ProviderCache :=
  [("Tmdb:7", exampleMovie1), ("Imdb:tt9", exampleMovie2)]

/-- An Arr item whose TMDb and IMDb IDs match different cached movies. -/
def exampleArrC4 : ArrItem := ⟨some "Movie One", some 7, some "tt9", none, []⟩

/-- An Arr item with every provider ID absent. -/
def exampleArrNoIds : ArrItem := ⟨some "Nowhere", none, none, none, []⟩

/-- Witness for C4: with both a TMDb and an IMDb candidate matching
different movies, the TMDb match wins and is the only candidate queried;
with no provider IDs at all the result is `none`. -/
theorem provider_priority_spec_witness :
    (find_matching_emby_item "radarr" exampleCacheC4 exampleArrC4 = some exampleMovie1 ∧
      (lookup_attempts_trace exampleCacheC4 "Movie"
        (provider_attempts "radarr" exampleArrC4)).2 = [("Tmdb", toString (7 : Int))]) ∧
    find_matching_emby_item "radarr" exampleCacheC4 exampleArrNoIds = none :=
  ⟨(provider_priority_spec "radarr" exampleCacheC4 exampleArrC4).1 7 exampleMovie1
      rfl (by decide) (by decide),
   (provider_priority_spec "radarr" exampleCacheC4 exampleArrNoIds).2
      (by intro c hc; simp [provider_attempts, exampleArrNoIds] at hc)⟩

/-! ### C1 — reconciliation postcondition for a matched pair -/

/-- C1: for a matched (ArrItem, EmbyItem) pair, the structured sync is
case-complete: an empty tag-ID list yields `no_tags` with no gateway
write; with `missing` the order-preserving filter of resolved labels not
already on the Emby item, an empty `missing` yields `already_synced` with
no gateway write, and a non-empty `missing` issues exactly one write
carrying exactly `missing` (never the full resolved set, and no tag of
the current Emby set). -/
theorem sync_item_reconciliation_spec :
    ∀ (arr_type : String) (m : Int → Option String) (cache : ProviderCache)
      (postOk : Bool) (a : ArrItem) (e : EmbyItem),
      find_matching_emby_item arr_type cache a = some e →
      (∀ dry_run, a.tags = [] →
        (sync_tags_for_item_structured arr_type m cache dry_run postOk a).1.code =
          StatusCode.no_tags ∧
        (sync_tags_for_item_structured arr_type m cache dry_run postOk a).2 = []) ∧
      (∀ dry_run, a.tags ≠ [] →
        (resolve_tag_labels m a.tags).filter
            (fun t => !((embyTagNames e).contains t)) = [] →
        (sync_tags_for_item_structured arr_type m cache dry_run postOk a).1.code =
          StatusCode.already_synced ∧
        (sync_tags_for_item_structured arr_type m cache dry_run postOk a).2 = []) ∧
      (a.tags ≠ [] →
        (resolve_tag_labels m a.tags).filter
            (fun t => !((embyTagNames e).contains t)) ≠ [] →
        (sync_tags_for_item_structured arr_type m cache false postOk a).2 =
          [⟨e.Id, (resolve_tag_labels m a.tags).filter
            (fun t => !((embyTagNames e).contains t))⟩] ∧
        ∀ t ∈ (resolve_tag_labels m a.tags).filter
            (fun t => !((embyTagNames e).contains t)), t ∉ embyTagNames e) := by
  intro arr_type m cache postOk a e hmatch
  refine ⟨?_, ?_, ?_⟩
  · intro dry_run htags
    unfold sync_tags_for_item_structured
    rw [hmatch]
    unfold sync_tags_for_item_core
    simp [htags]
  · intro dry_run htags hmiss
    have hall : (resolve_tag_labels m a.tags).all
        (fun t => (embyTagNames e).contains t) = true :=
      (subset_check_iff_filter_nil _ _).mpr hmiss
    have hall2 : ∀ x ∈ resolve_tag_labels m a.tags, x ∈ embyTagNames e := by
      simpa using hall
    unfold sync_tags_for_item_structured
    rw [hmatch]
    unfold sync_tags_for_item_core
    simp [List.isEmpty_iff, htags]
    rw [if_pos hall2]
    exact ⟨rfl, rfl⟩
  · intro htags hmiss
    have hall2 : ¬ (∀ x ∈ resolve_tag_labels m a.tags, x ∈ embyTagNames e) := by
      intro hcontra
      apply hmiss
      apply (subset_check_iff_filter_nil _ _).mp
      simpa using hcontra
    constructor
    · unfold sync_tags_for_item_structured
      rw [hmatch]
      unfold sync_tags_for_item_core
      cases postOk <;>
        simp [List.isEmpty_iff, htags, hall2, update_item_tags]
    · intro t htf hmem
      have h2 := (List.mem_filter.mp htf).2
      simp [hmem] at h2

/-- The spec's §8 scenario tag mapping `{1:"Action", 2:"Drama"}`. -/
def exampleMappingAD : Int → Option String :=
  fun i => if i = 1 then some "Action" else if i = 2 then some "Drama" else none

/-- The spec's §8 scenario matched Emby item with current tags `{"Action"}`. -/
def exampleEmbyX : EmbyItem :=
  ⟨"e9", some "X", some "Movie", [⟨"Action"⟩], [("Tmdb", "100")]⟩

/-- Warm provider cache holding the §8 scenario item. -/
def exampleCacheX : ProviderCache := [("Tmdb:100", exampleEmbyX)]

/-- The spec's §8 scenario Arr item `{title:"X", tmdbId:100, tagIds:[1,2]}`. -/
def exampleArrX : ArrItem := ⟨some "X", some 100, none, none, [1, 2]⟩

/-- Witness for C1: in the spec's §8 scenario the reconciler issues exactly
`addTags("e9", ["Drama"])` — the missing tag only, not the full resolved
set. -/
theorem sync_item_reconciliation_spec_witness :
    (sync_tags_for_item_structured "radarr" exampleMappingAD exampleCacheX
      false true exampleArrX).2 = [⟨"e9", ["Drama"]⟩] :=
  ((sync_item_reconciliation_spec "radarr" exampleMappingAD exampleCacheX true
      exampleArrX exampleEmbyX (by decide)).2.2 (by decide) (by decide)).1

/-! ### C7 — dry-run frame condition -/

/-- C7: for an item needing tag updates, dry-run produces the same outcome
kind `updated` (success, with a "Would add" message where the live run
says "Added") while issuing no gateway write at all, so the Emby state is
left unchanged. -/
theorem dry_run_frame_spec :
    ∀ (arr_type : String) (m : Int → Option String) (cache : ProviderCache)
      (postOk : Bool) (a : ArrItem) (e : EmbyItem),
      find_matching_emby_item arr_type cache a = some e →
      a.tags ≠ [] →
      (resolve_tag_labels m a.tags).filter
          (fun t => !((embyTagNames e).contains t)) ≠ [] →
      ((sync_tags_for_item_structured arr_type m cache true postOk a).1.code =
          StatusCode.updated ∧
        (sync_tags_for_item_structured arr_type m cache true postOk a).1.success = true ∧
        (sync_tags_for_item_structured arr_type m cache true postOk a).1.message =
          "Would add" ++ " tags: " ++ pyListRepr ((resolve_tag_labels m a.tags).filter
            (fun t => !((embyTagNames e).contains t))) ∧
        (sync_tags_for_item_structured arr_type m cache true postOk a).2 = [] ∧
        (∀ server, applyCalls server
            (sync_tags_for_item_structured arr_type m cache true postOk a).2 = server) ∧
        (sync_tags_for_item_structured arr_type m cache false true a).1.code =
          StatusCode.updated ∧
        (sync_tags_for_item_structured arr_type m cache false true a).1.message =
          "Added" ++ " tags: " ++ pyListRepr ((resolve_tag_labels m a.tags).filter
            (fun t => !((embyTagNames e).contains t)))) := by
  intro arr_type m cache postOk a e hmatch htags hmiss
  have hall2 : ¬ (∀ x ∈ resolve_tag_labels m a.tags, x ∈ embyTagNames e) := by
    intro hcontra
    apply hmiss
    apply (subset_check_iff_filter_nil _ _).mp
    simpa using hcontra
  unfold sync_tags_for_item_structured
  rw [hmatch]
  unfold sync_tags_for_item_core
  simp [List.isEmpty_iff, htags, update_item_tags]
  rw [if_neg hall2]
  simp [applyCalls]
  rw [if_neg hall2]
  exact ⟨rfl, rfl⟩

/-- Witness for C7: in the §8 scenario under dry-run (even with a failing
network oracle), no gateway write is issued and the outcome kind is still
`updated`. -/
theorem dry_run_frame_spec_witness :
    (sync_tags_for_item_structured "radarr" exampleMappingAD exampleCacheX
        true false exampleArrX).2 = [] ∧
    (sync_tags_for_item_structured "radarr" exampleMappingAD exampleCacheX
        true false exampleArrX).1.code = StatusCode.updated :=
  ⟨((dry_run_frame_spec "radarr" exampleMappingAD exampleCacheX false exampleArrX
      exampleEmbyX (by decide) (by decide) (by decide)).2.2.2).1,
   (dry_run_frame_spec "radarr" exampleMappingAD exampleCacheX false exampleArrX
      exampleEmbyX (by decide) (by decide) (by decide)).1⟩

/-! ### C3 — per-item failure isolation -/

/-- Server state for the C3 scenario: one movie matching item 1. -/
def c3Server : List EmbyItem :=
  [⟨"e1", some "M1", some "Movie", [], [("Tmdb", "100")]⟩]

/-- C3 batch: item 1 matches and needs an update, item 2 will throw during
matching, item 3 has no Emby match. -/
def c3Items : List ArrItem :=
  [⟨some "M1", some 100, none, none, [1]⟩,
   ⟨some "M2", some 200, none, none, [1]⟩,
   ⟨some "M3", some 300, none, none, [1]⟩]

/-- Exception oracle for C3: item 2 (TMDb 200) raises `"boom"` during
matching; every other item matches normally. -/
def c3Exc : ArrItem → Option String :=
  fun a => if a.tmdbId == some 200 then some "boom" else none

/-- The C3 Arr instance (radarr, mapping `{1:"A"}`). -/
def c3Inst : ArrInstance :=
  ⟨"radarr", "http://radarr", true, (fun i => if i = 1 then some "A" else none), c3Items⟩

/-- The C3 run of `sync_all_tags` (batch size 50, live run, healthy
connections and network). -/
def c3Run : Except String (Stats × ClientCaches × List EmbyItem) :=
  sync_all_tags_model c3Inst true false true c3Exc 50 emptyCaches c3Server

/-- Counterexample to C3 as stated: in the 3-item batch where item 2
throws during matching, `processed_items` is `3`, not `2` — the exception
is caught inside `sync_tags_for_item_structured`, which converts it into a
failed `error` result, and `sync_all_tags` still counts the item as
processed. -/
theorem failure_isolation_processed_counterexample :
    (runStats c3Run).processed_items = 3 ∧ ¬ ((runStats c3Run).processed_items = 2) := by
  constructor
  · rfl
  · decide

/-- C3 as amended: in the 3-item batch where item 2 throws during matching
and items 1 and 3 complete normally, the run yields `processed_items == 3`
(the throwing item is still counted as processed because its exception is
caught inside the per-item structured sync), `failed_syncs == 1` with
exactly the one error message, and items 1 and 3 are still counted under
their correct outcomes (one successful sync, one not-in-Emby). -/
theorem failure_isolation_amended :
    (runStats c3Run).total_items = 3 ∧
    (runStats c3Run).processed_items = 3 ∧
    (runStats c3Run).failed_syncs = 1 ∧
    (runStats c3Run).successful_syncs = 1 ∧
    (runStats c3Run).not_in_emby = 1 ∧
    (runStats c3Run).errors = ["✗ M2: Error: boom"] := by
  refine ⟨rfl, rfl, rfl, rfl, rfl, rfl⟩

/-! ### C9 — failed_syncs tracks the errors list -/

/-- A failure increments `failed_syncs` and appends exactly one error
message; a success touches neither, so `record_result` preserves their
agreement. -/
theorem record_result_failed_errors (stats : Stats) (title : String) (res : SyncResult)
    (h : stats.failed_syncs = stats.errors.length) :
    (record_result stats title res).failed_syncs =
      (record_result stats title res).errors.length := by
  unfold record_result
  cases hs : res.success
  · simp [h]
  · cases res.code <;> simp [h]

/-- The item loop preserves the `failed_syncs = |errors|` invariant. -/
theorem foldl_items_failed_errors (arr_type : String) (m : Int → Option String)
    (cache : ProviderCache) (dry_run postOk : Bool) (exc : ArrItem → Option String) :
    ∀ (l : List ArrItem) (acc : Stats × List EmbyItem),
      acc.1.failed_syncs = acc.1.errors.length →
      (l.foldl (item_step arr_type m cache dry_run postOk exc) acc).1.failed_syncs =
        (l.foldl (item_step arr_type m cache dry_run postOk exc) acc).1.errors.length := by
  intro l
  induction l with
  | nil => intro acc h; exact h
  | cons a rest ih =>
      intro acc h
      simp only [List.foldl_cons]
      exact ih _ (record_result_failed_errors _ _ _ h)

/-- The batch loop preserves the `failed_syncs = |errors|` invariant. -/
theorem foldl_batches_failed_errors (arr_type : String) (m : Int → Option String)
    (cache : ProviderCache) (dry_run postOk : Bool) (exc : ArrItem → Option String) :
    ∀ (bs : List (List ArrItem)) (acc : Stats × List EmbyItem),
      acc.1.failed_syncs = acc.1.errors.length →
      (bs.foldl (fun acc batch =>
          batch.foldl (item_step arr_type m cache dry_run postOk exc) acc) acc).1.failed_syncs =
        (bs.foldl (fun acc batch =>
          batch.foldl (item_step arr_type m cache dry_run postOk exc) acc) acc).1.errors.length := by
  intro bs
  induction bs with
  | nil => intro acc h; exact h
  | cons b rest ih =>
      intro acc h
      simp only [List.foldl_cons]
      exact ih _ (foldl_items_failed_errors arr_type m cache dry_run postOk exc b acc h)

/-- C9: whatever the item list and the per-item outcomes (exceptions
included), the statistics returned by `sync_all_tags` satisfy
`failed_syncs == len(errors)` — each increment of `failed_syncs` appends
exactly one message to `errors` and nothing else appends to it. -/
theorem failed_syncs_eq_errors_spec :
    ∀ (inst : ArrInstance) (embyOk dry_run postOk : Bool)
      (exc : ArrItem → Option String) (batch_size : Nat)
      (caches : ClientCaches) (server : List EmbyItem)
      (st : Stats) (caches' : ClientCaches) (server' : List EmbyItem),
      sync_all_tags_model inst embyOk dry_run postOk exc batch_size caches server =
        Except.ok (st, caches', server') →
      st.failed_syncs = st.errors.length := by
  intro inst embyOk dry_run postOk exc batch_size caches server st caches' server' h
  unfold sync_all_tags_model at h
  by_cases hc : inst.connOk
  · by_cases he : embyOk
    · simp only [hc, he, Bool.not_true, Bool.false_eq_true, if_false, Except.ok.injEq,
        Prod.mk.injEq] at h
      obtain ⟨h1, -⟩ := h
      subst h1
      exact foldl_batches_failed_errors inst.arr_type inst.tag_mapping
        (warm inst.arr_type server caches).provider dry_run postOk exc
        (pyBatches batch_size inst.items) (initStats inst.items.length, server) rfl
    · simp [hc, he] at h
  · simp [hc] at h

/-- A trivial healthy instance with no items, for the C9 witness. -/
def c9Inst : ArrInstance := ⟨"radarr", "http://radarr", true, (fun _ => none), []⟩

/-- Witness for C9: a concrete run returning `.ok` statistics satisfies
`failed_syncs = |errors|`. -/
theorem failed_syncs_eq_errors_spec_witness :
    (initStats 0).failed_syncs = (initStats 0).errors.length :=
  failed_syncs_eq_errors_spec c9Inst true false true (fun _ => none) 50 emptyCaches []
    (initStats 0) (warm "radarr" [] emptyCaches) [] rfl

/-! ### C8 — multi-instance probe gate -/

/-- C8: `sync_all_instances` probes Emby and every configured Arr instance
first (in that order, with 1-based `{arr_type}_{i}` names); if any probe
fails, the run raises a fatal error listing exactly the failed service
names — no instance processing happens and no statistics are produced. -/
theorem probe_gate_spec :
    ∀ (embyOk : Bool) (insts : List ArrInstance) (dry_run postOk : Bool)
      (exc : ArrItem → Option String) (batch_size : Nat)
      (caches : ClientCaches) (server : List EmbyItem),
      (test_all_connections embyOk insts).map (·.1) =
        "emby" :: (pyEnumerate1 1 insts).map
          (fun p => p.2.arr_type ++ "_" ++ toString p.1) ∧
      (((test_all_connections embyOk insts).filter (fun p => !p.2)).map (·.1) ≠ [] →
        sync_all_instances_model embyOk insts dry_run postOk exc batch_size caches server =
          Except.error ("Failed to connect to services: " ++ String.intercalate ", "
            (((test_all_connections embyOk insts).filter (fun p => !p.2)).map (·.1)))) := by
  intro embyOk insts dry_run postOk exc batch_size caches server
  constructor
  · simp [test_all_connections]
  · intro hfail
    unfold sync_all_instances_model
    rw [if_neg (by simpa [List.isEmpty_iff] using hfail)]

/-- One unreachable radarr instance, for the C8 witness. -/
def c8Inst : ArrInstance := ⟨"radarr", "http://radarr", false, (fun _ => none), []⟩

/-- Witness for C8: with a healthy Emby but an unreachable first Arr
instance, the whole run aborts with the error naming `radarr_1`. -/
theorem probe_gate_spec_witness :
    sync_all_instances_model true [c8Inst] false true (fun _ => none) 50 emptyCaches [] =
      Except.error "Failed to connect to services: radarr_1" :=
  (probe_gate_spec true [c8Inst] false true (fun _ => none) 50 emptyCaches []).2
    (by decide)

/-! ### C2 — union convergence and additivity across instances -/

/-- Lemma: `addTagsToItem` keeps the item's id. -/
theorem addTagsToItem_Id (it : EmbyItem) (tags : List String) :
    (addTagsToItem it tags).Id = it.Id := rfl

/-- Lemma: `addTagsToItem` appends the genuinely new names after the existing
ones. -/
theorem addTagsToItem_names (it : EmbyItem) (tags : List String) :
    embyTagNames (addTagsToItem it tags) =
      embyTagNames it ++ tags.filter (fun t => !((embyTagNames it).contains t)) := by
  have hcomp : ((fun x : EmbyTagItem => x.Name) ∘ fun t => EmbyTagItem.mk t) = id := rfl
  simp [addTagsToItem, embyTagNames, hcomp]

/-- Applying `Tags/Add` never removes a tag from any item. -/
theorem applyAddTags_mono (call : UpdateCall) :
    ∀ (server : List EmbyItem) (id t : String),
      t ∈ serverTagNames server id → t ∈ serverTagNames (applyAddTags server call) id := by
  intro server
  induction server with
  | nil => intro id t h; exact h
  | cons it rest ih =>
      intro id t h
      rw [serverTagNames] at h
      rw [applyAddTags, serverTagNames]
      by_cases hc : (it.Id == call.itemId) = true
      · rw [if_pos hc]
        simp only [addTagsToItem_Id]
        by_cases hid : (it.Id == id) = true
        · rw [if_pos hid] at h
          rw [if_pos hid, addTagsToItem_names]
          exact List.mem_append_left _ h
        · rw [if_neg hid] at h
          rw [if_neg hid]
          exact ih id t h
      · rw [if_neg hc]
        by_cases hid : (it.Id == id) = true
        · rw [if_pos hid] at h
          rw [if_pos hid]
          exact h
        · rw [if_neg hid] at h
          rw [if_neg hid]
          exact ih id t h

/-- A sequence of `Tags/Add` calls never removes a tag. -/
theorem applyCalls_mono :
    ∀ (calls : List UpdateCall) (server : List EmbyItem) (id t : String),
      t ∈ serverTagNames server id → t ∈ serverTagNames (applyCalls server calls) id := by
  intro calls
  induction calls with
  | nil => intro server id t h; exact h
  | cons c rest ih =>
      intro server id t h
      exact ih _ id t (applyAddTags_mono c server id t h)

/-- One item-loop step never removes a tag from the server state. -/
theorem item_step_mono (arr_type : String) (m : Int → Option String)
    (cache : ProviderCache) (dry_run postOk : Bool) (exc : ArrItem → Option String)
    (acc : Stats × List EmbyItem) (a : ArrItem) (id t : String)
    (h : t ∈ serverTagNames acc.2 id) :
    t ∈ serverTagNames (item_step arr_type m cache dry_run postOk exc acc a).2 id := by
  unfold item_step
  by_cases hp : postOk
  · simp only [hp, if_true]
    exact applyCalls_mono _ acc.2 id t h
  · simp only [hp, Bool.false_eq_true, if_false]
    exact h

/-- The item loop never removes a tag from the server state. -/
theorem foldl_items_mono (arr_type : String) (m : Int → Option String)
    (cache : ProviderCache) (dry_run postOk : Bool) (exc : ArrItem → Option String) :
    ∀ (l : List ArrItem) (acc : Stats × List EmbyItem) (id t : String),
      t ∈ serverTagNames acc.2 id →
      t ∈ serverTagNames
        ((l.foldl (item_step arr_type m cache dry_run postOk exc) acc)).2 id := by
  intro l
  induction l with
  | nil => intro acc id t h; exact h
  | cons a rest ih =>
      intro acc id t h
      simp only [List.foldl_cons]
      exact ih _ id t (item_step_mono arr_type m cache dry_run postOk exc acc a id t h)

/-- The batch loop never removes a tag from the server state. -/
theorem foldl_batches_mono (arr_type : String) (m : Int → Option String)
    (cache : ProviderCache) (dry_run postOk : Bool) (exc : ArrItem → Option String) :
    ∀ (bs : List (List ArrItem)) (acc : Stats × List EmbyItem) (id t : String),
      t ∈ serverTagNames acc.2 id →
      t ∈ serverTagNames
        ((bs.foldl (fun acc batch =>
          batch.foldl (item_step arr_type m cache dry_run postOk exc) acc) acc)).2 id := by
  intro bs
  induction bs with
  | nil => intro acc id t h; exact h
  | cons b rest ih =>
      intro acc id t h
      simp only [List.foldl_cons]
      exact ih _ id t (foldl_items_mono arr_type m cache dry_run postOk exc b acc id t h)

/-- A whole single-instance sync never removes a tag from the server
state. -/
theorem sync_all_tags_mono (inst : ArrInstance) (embyOk dry_run postOk : Bool)
    (exc : ArrItem → Option String) (batch_size : Nat)
    (caches : ClientCaches) (server : List EmbyItem)
    (st : Stats) (caches' : ClientCaches) (server' : List EmbyItem)
    (h : sync_all_tags_model inst embyOk dry_run postOk exc batch_size caches server =
      Except.ok (st, caches', server'))
    (id t : String) (hmem : t ∈ serverTagNames server id) :
    t ∈ serverTagNames server' id := by
  unfold sync_all_tags_model at h
  by_cases hc : inst.connOk
  · by_cases he : embyOk
    · simp only [hc, he, Bool.not_true, Bool.false_eq_true, if_false, Except.ok.injEq,
        Prod.mk.injEq] at h
      obtain ⟨-, -, h3⟩ := h
      subst h3
      exact foldl_batches_mono inst.arr_type inst.tag_mapping
        (warm inst.arr_type server caches).provider dry_run postOk exc
        (pyBatches batch_size inst.items) (initStats inst.items.length, server) id t hmem
    · simp [hc, he] at h
  · simp [hc] at h

/-- One multi-instance loop step never removes a tag from the server
state (a failed instance leaves it untouched). -/
theorem instance_step_mono (embyOk dry_run postOk : Bool)
    (exc : ArrItem → Option String) (batch_size : Nat)
    (acc : OverallStats × ClientCaches × List EmbyItem) (p : Nat × ArrInstance)
    (id t : String) (h : t ∈ serverTagNames acc.2.2 id) :
    t ∈ serverTagNames (instance_step embyOk dry_run postOk exc batch_size acc p).2.2 id := by
  simp only [instance_step]
  cases hm : sync_all_tags_model p.2 embyOk dry_run postOk exc batch_size acc.2.1 acc.2.2 with
  | error e => exact h
  | ok v =>
      obtain ⟨st, caches', server'⟩ := v
      exact sync_all_tags_mono p.2 embyOk dry_run postOk exc batch_size acc.2.1 acc.2.2
        st caches' server' hm id t h

/-- The multi-instance loop never removes a tag from the server state. -/
theorem foldl_instances_mono (embyOk dry_run postOk : Bool)
    (exc : ArrItem → Option String) (batch_size : Nat) :
    ∀ (ps : List (Nat × ArrInstance)) (acc : OverallStats × ClientCaches × List EmbyItem)
      (id t : String),
      t ∈ serverTagNames acc.2.2 id →
      t ∈ serverTagNames
        ((ps.foldl (instance_step embyOk dry_run postOk exc batch_size) acc)).2.2 id := by
  intro ps
  induction ps with
  | nil => intro acc id t h; exact h
  | cons p rest ih =>
      intro acc id t h
      simp only [List.foldl_cons]
      exact ih _ id t (instance_step_mono embyOk dry_run postOk exc batch_size acc p id t h)

/-- Initial Emby server state for C2: one untagged movie with TMDb 100. -/
def c2Server : List EmbyItem :=
  [⟨"e1", some "X", some "Movie", [], [("Tmdb", "100")]⟩]

/-- First C2 Arr instance: its copy of the title carries tag label "A". -/
def c2InstA : ArrInstance :=
  ⟨"radarr", "http://a", true, (fun i => if i = 1 then some "A" else none),
   [⟨some "X", some 100, none, none, [1]⟩]⟩

/-- Second C2 Arr instance: its copy of the title carries tag label "B". -/
def c2InstB : ArrInstance :=
  ⟨"radarr", "http://b", true, (fun i => if i = 1 then some "B" else none),
   [⟨some "X", some 100, none, none, [1]⟩]⟩

/-- The C2 run processing instance A then instance B. -/
def c2RunAB : Except String (OverallStats × ClientCaches × List EmbyItem) :=
  sync_all_instances_model true [c2InstA, c2InstB] false true (fun _ => none) 50
    emptyCaches c2Server

/-- The C2 run processing instance B then instance A. -/
def c2RunBA : Except String (OverallStats × ClientCaches × List EmbyItem) :=
  sync_all_instances_model true [c2InstB, c2InstA] false true (fun _ => none) 50
    emptyCaches c2Server

/-- C2: two Arr instances carrying the same TMDb ID with disjoint tag sets
`{"A"}` and `{"B"}` synced sequentially against one shared Emby state
leave the matched item's tag set equal to the union `{"A","B"}`,
identically for both processing orders; and, in general, no multi-instance
sync ever removes a tag the server already holds (so no instance's sync
removes a tag added by another). -/
theorem union_convergence_spec :
    serverTagNames (finalServer c2RunAB) "e1" = ["A", "B"] ∧
    serverTagNames (finalServer c2RunBA) "e1" = ["B", "A"] ∧
    (serverTagNames (finalServer c2RunAB) "e1").toFinset =
      (serverTagNames (finalServer c2RunBA) "e1").toFinset ∧
    (serverTagNames (finalServer c2RunAB) "e1").toFinset = {"A", "B"} ∧
    (∀ (embyOk : Bool) (insts : List ArrInstance) (dry_run postOk : Bool)
      (exc : ArrItem → Option String) (batch_size : Nat)
      (caches : ClientCaches) (server : List EmbyItem)
      (over : OverallStats) (caches' : ClientCaches) (server' : List EmbyItem)
      (id t : String),
      sync_all_instances_model embyOk insts dry_run postOk exc batch_size caches server =
        Except.ok (over, caches', server') →
      t ∈ serverTagNames server id → t ∈ serverTagNames server' id) := by
  refine ⟨rfl, rfl, by decide, by decide, ?_⟩
  intro embyOk insts dry_run postOk exc batch_size caches server over caches' server'
    id t h hmem
  simp only [sync_all_instances_model] at h
  split at h
  · rw [Except.ok.injEq] at h
    have h3 : ((pyEnumerate1 1 insts).foldl
        (instance_step embyOk dry_run postOk exc batch_size)
        (initOverall insts.length, caches, server)).2.2 = server' :=
      congrArg (fun x : OverallStats × ClientCaches × List EmbyItem => x.2.2) h
    rw [← h3]
    exact foldl_instances_mono embyOk dry_run postOk exc batch_size
      (pyEnumerate1 1 insts) (initOverall insts.length, caches, server) id t hmem
  · cases h

/-- C2 witness server: the matched item already carries a user-set tag
`"Z"`. -/
def c2ServerZ : List EmbyItem :=
  [⟨"e1", some "X", some "Movie", [⟨"Z"⟩], [("Tmdb", "100")]⟩]

/-- The C2 witness run over the `"Z"`-tagged server. -/
def c2RunZ : Except String (OverallStats × ClientCaches × List EmbyItem) :=
  sync_all_instances_model true [c2InstA, c2InstB] false true (fun _ => none) 50
    emptyCaches c2ServerZ

/-- Witness for C2: the pre-existing user tag `"Z"` survives the full
two-instance sync. -/
theorem union_convergence_spec_witness :
    "Z" ∈ serverTagNames (finalServer c2RunZ) "e1" := by
  have h := union_convergence_spec.2.2.2.2 true [c2InstA, c2InstB] false true
    (fun _ => none) 50 emptyCaches c2ServerZ _ _ _ "e1" "Z" rfl (by decide)
  exact h
